import Mathlib

/-!
Verification development for the MediVault job-queue / rate-limiting /
session subsystem.

The definitions below are shallow embeddings of the JavaScript source:

  - backend/src/services/redisService.js  (RedisService: checkRateLimit,
    enqueueJob, dequeueJob, publishNotification, getUserNotifications;
    JobProcessor: processJob)
  - backend/scripts/setupRedis.js         (SessionManager: createSession,
    refreshSession, isSessionExpired, createSessionMiddleware)
  - the rate-limiter middleware module    (RateLimiter: createLimiter,
    createSlidingWindowLimiter)
  - backend/src/config/redis.js           (store adapter: get returns the
    stored value while the key is unexpired, setEx stores a value with a
    time-to-live in seconds; smembers raises a WRONGTYPE error when the
    key holds a list)

Times are modelled in milliseconds (JavaScript Date.now), window and ttl
parameters in seconds, exactly as in the source.  A stored key carries its
absolute expiry instant; a read at an instant not strictly before the
expiry sees an absent key, matching Redis TTL expiry.
-/

/-! ## Fixed-window rate limiter: RedisService.checkRateLimit -/

/-- Result record returned by checkRateLimit in the source:
an allowed flag, the remaining budget, and a reset instant. -/
structure RLResult where
  allowed : Bool
  remaining : Int
  resetTime : Int
deriving DecidableEq

/-- Store read for the rate-limit counter key: the counter value is visible
while the current instant is strictly before the stored expiry instant;
otherwise the key has expired and the read yields none.  Mirrors
redisService.get over a setEx-stored key. -/
def rlGet (now : Int) (st : Option (Int × Int)) : Option Int :=
  match st with
  | none => none
  | some (c, e) => if now < e then some c else none

/-- Shallow embedding of RedisService.checkRateLimit: read the counter;
if absent, store 1 with TTL = window and allow with remaining = limit - 1;
if the counter is at least the limit, deny without writing;
otherwise store counter + 1 with a fresh full-window TTL and allow with
remaining = limit - counter - 1.  The state is the counter key paired with
its absolute expiry instant (now + window * 1000 after a write, since the
TTL is given in seconds and instants are in milliseconds). -/
def checkRateLimit (limit window now : Int) (st : Option (Int × Int)) :
    RLResult × Option (Int × Int) :=
  match rlGet now st with
  | none =>
      ({ allowed := true, remaining := limit - 1, resetTime := now + window * 1000 },
       some (1, now + window * 1000))
  | some current =>
      if limit ≤ current then
        ({ allowed := false, remaining := 0, resetTime := now + window * 1000 }, st)
      else
        ({ allowed := true, remaining := limit - current - 1,
           resetTime := now + window * 1000 },
         some (current + 1, now + window * 1000))

/-- Run a sequence of checkRateLimit calls at the given instants for one
identifier, counting how many of them were allowed. -/
def rlRun (limit window : Int) (st : Option (Int × Int)) :
    List Int → Nat × Option (Int × Int)
  | [] => (0, st)
  | t :: ts =>
      let step := checkRateLimit limit window t st
      let rest := rlRun limit window step.2 ts
      ((if step.1.allowed then 1 else 0) + rest.1, rest.2)

/-- The counter never expires during the given call sequence: whenever the
counter key is present, the next call happens strictly before its expiry
instant.  This captures the calls falling inside a single counter
lifetime. -/
def rlNoExpiry (limit window : Int) : Option (Int × Int) → List Int → Bool
  | _, [] => true
  | st, t :: ts =>
      (match st with
       | none => true
       | some (_, e) => decide (t < e)) &&
      rlNoExpiry limit window (checkRateLimit limit window t st).2 ts

theorem checkRateLimit_absent {limit window now : Int} {st : Option (Int × Int)}
    (h : rlGet now st = none) :
    checkRateLimit limit window now st =
      ({ allowed := true, remaining := limit - 1, resetTime := now + window * 1000 },
       some (1, now + window * 1000)) := by
  unfold checkRateLimit
  rw [h]

theorem checkRateLimit_denied {limit window now : Int} {st : Option (Int × Int)}
    {c : Int} (h : rlGet now st = some c) (hc : limit ≤ c) :
    checkRateLimit limit window now st =
      ({ allowed := false, remaining := 0, resetTime := now + window * 1000 }, st) := by
  unfold checkRateLimit
  rw [h]
  simp [hc]

theorem checkRateLimit_incr {limit window now : Int} {st : Option (Int × Int)}
    {c : Int} (h : rlGet now st = some c) (hc : c < limit) :
    checkRateLimit limit window now st =
      ({ allowed := true, remaining := limit - c - 1, resetTime := now + window * 1000 },
       some (c + 1, now + window * 1000)) := by
  unfold checkRateLimit
  rw [h]
  simp [not_le.mpr hc]

/-- Within one counter lifetime, starting from a live counter of value c
with c at most the limit, the number of allowed calls is bounded by
limit - c. -/
theorem rlRun_bound_aux (limit window : Int) :
    ∀ (ts : List Int) (c e : Int), c ≤ limit →
      rlNoExpiry limit window (some (c, e)) ts = true →
      ((rlRun limit window (some (c, e)) ts).1 : Int) ≤ limit - c := by
  intro ts
  induction ts with
  | nil =>
      intro c e hc _
      simpa [rlRun] using sub_nonneg.mpr hc
  | cons t ts ih =>
      intro c e hc hne
      have hsplit : (decide (t < e)) = true ∧
          rlNoExpiry limit window (checkRateLimit limit window t (some (c, e))).2 ts = true := by
        simpa [rlNoExpiry, Bool.and_eq_true] using hne
      have hlive : t < e := of_decide_eq_true hsplit.1
      have hget : rlGet t (some (c, e)) = some c := by
        simp [rlGet, hlive]
      have htail := hsplit.2
      by_cases hcl : limit ≤ c
      · -- the counter is saturated: the call is denied and nothing changes
        have hstep := @checkRateLimit_denied limit window t (some (c, e)) c hget hcl
        have htail2 : rlNoExpiry limit window (some (c, e)) ts = true := by
          rw [hstep] at htail
          exact htail
        have hrec := ih c e hc htail2
        have : (rlRun limit window (some (c, e)) (t :: ts)).1 =
            (rlRun limit window (some (c, e)) ts).1 := by
          simp [rlRun, hstep]
        rw [this]
        exact hrec
      · -- the call is allowed: the counter increments and the budget shrinks
        have hlt : c < limit := lt_of_not_le hcl
        have hstep := @checkRateLimit_incr limit window t (some (c, e)) c hget hlt
        have htail2 : rlNoExpiry limit window
            (some (c + 1, t + window * 1000)) ts = true := by
          rw [hstep] at htail
          exact htail
        have hrec := ih (c + 1) (t + window * 1000) (by omega) htail2
        have hcount : (rlRun limit window (some (c, e)) (t :: ts)).1 =
            1 + (rlRun limit window (some (c + 1, t + window * 1000)) ts).1 := by
          simp [rlRun, hstep]
        rw [hcount]
        push_cast
        omega

/-- Within a single counter lifetime starting from an absent counter, at
most limit calls are allowed, provided the limit is positive. -/
theorem rlRun_bound (limit window : Int) (hl : 1 ≤ limit) :
    ∀ ts : List Int, rlNoExpiry limit window none ts = true →
      ((rlRun limit window none ts).1 : Int) ≤ limit := by
  intro ts hne
  cases ts with
  | nil => simp [rlRun]; omega
  | cons t ts =>
      have hget : rlGet t (none : Option (Int × Int)) = none := rfl
      have hstep := @checkRateLimit_absent limit window t none hget
      have htail : rlNoExpiry limit window (some (1, t + window * 1000)) ts = true := by
        have hsplit : rlNoExpiry limit window
            (checkRateLimit limit window t none).2 ts = true := by
          simpa [rlNoExpiry, Bool.and_eq_true] using hne
        rw [hstep] at hsplit
        exact hsplit
      have hrec := rlRun_bound_aux limit window ts 1 (t + window * 1000) hl htail
      have hcount : (rlRun limit window none (t :: ts)).1 =
          1 + (rlRun limit window (some (1, t + window * 1000)) ts).1 := by
        simp [rlRun, hstep]
      rw [hcount]
      push_cast
      omega

/-- Claim C2 counterexample: with limit 0 the very first checkRateLimit
call finds no counter stored and is allowed, so one call is allowed within
a single counter lifetime even though the limit is 0.  The claimed
consequence that no more than limit calls are allowed therefore fails at
limit 0. -/
theorem C2_counterexample_limit_zero :
    rlNoExpiry 0 60 none [0] = true ∧
    (rlRun 0 60 none [0]).1 = 1 ∧ ¬ (((rlRun 0 60 none [0]).1 : Int) ≤ 0) := by
  refine ⟨rfl, rfl, ?_⟩
  decide

/-- Claim C2 (amended): for every sequence of checkRateLimit calls for the
same identifier, a call finding no counter stores counter 1 with TTL equal
to the window and allows with remaining = limit - 1; a call finding a
counter of at least the limit denies; otherwise the counter is incremented
by one with the TTL re-set to the full window and the call allows with
remaining = limit - counter - 1.  Consequently, provided the limit is
positive, no more than limit calls are allowed within a single counter
lifetime. -/
theorem C2_fixed_window_amended (limit window now : Int) (st : Option (Int × Int)) :
    (rlGet now st = none →
      checkRateLimit limit window now st =
        ({ allowed := true, remaining := limit - 1, resetTime := now + window * 1000 },
         some (1, now + window * 1000))) ∧
    (∀ c : Int, rlGet now st = some c → limit ≤ c →
      checkRateLimit limit window now st =
        ({ allowed := false, remaining := 0, resetTime := now + window * 1000 }, st)) ∧
    (∀ c : Int, rlGet now st = some c → c < limit →
      checkRateLimit limit window now st =
        ({ allowed := true, remaining := limit - c - 1, resetTime := now + window * 1000 },
         some (c + 1, now + window * 1000))) ∧
    (1 ≤ limit → ∀ ts : List Int, rlNoExpiry limit window none ts = true →
      ((rlRun limit window none ts).1 : Int) ≤ limit) := by
  refine ⟨?_, ?_, ?_, ?_⟩
  · intro h
    exact checkRateLimit_absent h
  · intro c h hc
    exact checkRateLimit_denied h hc
  · intro c h hc
    exact checkRateLimit_incr h hc
  · intro hl ts hts
    exact rlRun_bound limit window hl ts hts

/-- Witness for the amended claim C2 at a concrete input: three calls at
instants 0, 1000 and 2000 with limit 2 and window 60 form one counter
lifetime and at most 2 of them are allowed. -/
theorem C2_fixed_window_amended_witness :
    (1 : Int) ≤ 2 ∧ rlNoExpiry 2 60 none [0, 1000, 2000] = true ∧
    ((rlRun 2 60 none [0, 1000, 2000]).1 : Int) ≤ 2 := by
  refine ⟨by decide, by decide, ?_⟩
  exact (C2_fixed_window_amended 2 60 0 none).2.2.2 (by decide)
    [0, 1000, 2000] (by decide)

/-- Claim C7 counterexample: with limit 5 and window 60, requests accepted
at instants 0 and 10000 re-set the TTL on each acceptance.  A check at
instant 61000, more than windowSeconds after the first acceptance, still
finds the live counter (value 2, expiring at 70000): it returns allowed
with remaining 2 instead of the fresh-window remaining 4, and stores
counter 3 rather than resetting to 1.  The claim fails when accepted
requests intervene after the first acceptance. -/
theorem C7_counterexample_intermediate_accept :
    61000 > 0 + 60 * 1000 ∧
    (checkRateLimit 5 60 61000
      ((checkRateLimit 5 60 10000 ((checkRateLimit 5 60 0 none).2)).2)) =
      ({ allowed := true, remaining := 2, resetTime := 121000 }, some (3, 121000)) ∧
    ¬ ((checkRateLimit 5 60 61000
      ((checkRateLimit 5 60 10000 ((checkRateLimit 5 60 0 none).2)).2)).1.remaining
        = 5 - 1) := by
  refine ⟨by decide, rfl, by decide⟩

/-- Accepted checkRateLimit calls always store a counter expiring exactly
window seconds after the call instant. -/
theorem checkRateLimit_allowed_expiry {limit window t : Int} {st : Option (Int × Int)}
    (h : (checkRateLimit limit window t st).1.allowed = true) :
    ∃ v : Int, (checkRateLimit limit window t st).2 = some (v, t + window * 1000) := by
  cases hg : rlGet t st with
  | none => exact ⟨1, by rw [checkRateLimit_absent hg]⟩
  | some c =>
      by_cases hc : limit ≤ c
      · rw [checkRateLimit_denied hg hc] at h
        simp at h
      · exact ⟨c + 1, by rw [checkRateLimit_incr hg (lt_of_not_le hc)]⟩

/-- Claim C7 (amended): a fixed-window check performed at least
windowSeconds after the most recent accepted request (each acceptance
re-sets the TTL to the full window, so the counter expires windowSeconds
after the last acceptance, not the first) finds the counter expired and is
treated as the first request of a fresh window, storing counter 1 and
returning allowed with remaining = limit - 1. -/
theorem C7_window_resets_after_last_accept (limit window t now : Int)
    (st : Option (Int × Int))
    (hacc : (checkRateLimit limit window t st).1.allowed = true)
    (hnow : t + window * 1000 ≤ now) :
    checkRateLimit limit window now ((checkRateLimit limit window t st).2) =
      ({ allowed := true, remaining := limit - 1, resetTime := now + window * 1000 },
       some (1, now + window * 1000)) := by
  obtain ⟨v, hpost⟩ := checkRateLimit_allowed_expiry hacc
  rw [hpost]
  apply checkRateLimit_absent
  simp [rlGet, not_lt.mpr hnow]

/-- Witness for the amended claim C7: an accepted call at instant 0 with
limit 5 and window 60, followed by a check at instant 60000, yields the
fresh-window result. -/
theorem C7_window_resets_after_last_accept_witness :
    (checkRateLimit 5 60 0 none).1.allowed = true ∧
    (0 : Int) + 60 * 1000 ≤ 60000 ∧
    checkRateLimit 5 60 60000 ((checkRateLimit 5 60 0 none).2) =
      ({ allowed := true, remaining := 4, resetTime := 120000 }, some (1, 120000)) := by
  refine ⟨rfl, by decide, ?_⟩
  have h := C7_window_resets_after_last_accept 5 60 0 60000 none rfl (by decide)
  simpa using h

/-- Claim C10: a denied fixed-window check is effect-free.  Whenever the
stored counter read at the call instant is at least the limit, the call
returns allowed = false with remaining = 0 and the post-state is exactly
the pre-state: the counter value and its expiry instant are untouched, so
denied requests neither consume budget nor extend the window. -/
theorem C10_denied_check_effect_free (limit window now : Int)
    (st : Option (Int × Int)) (c : Int)
    (h : rlGet now st = some c) (hc : limit ≤ c) :
    (checkRateLimit limit window now st).1.allowed = false ∧
    (checkRateLimit limit window now st).1.remaining = 0 ∧
    (checkRateLimit limit window now st).2 = st := by
  rw [checkRateLimit_denied h hc]
  exact ⟨rfl, rfl, rfl⟩

/-- Witness for claim C10: with a live counter of value 3 and limit 3, a
check at instant 0 is denied and leaves the counter pair unchanged. -/
theorem C10_denied_check_effect_free_witness :
    rlGet 0 (some ((3 : Int), (100000 : Int))) = some 3 ∧ (3 : Int) ≤ 3 ∧
    ((checkRateLimit 3 60 0 (some (3, 100000))).1.allowed = false ∧
     (checkRateLimit 3 60 0 (some (3, 100000))).1.remaining = 0 ∧
     (checkRateLimit 3 60 0 (some (3, 100000))).2 = some (3, 100000)) := by
  refine ⟨by decide, by decide, ?_⟩
  exact C10_denied_check_effect_free 3 60 0 (some (3, 100000)) 3 (by decide) (by decide)

/-! ## Sliding-window limiter: RateLimiter.createSlidingWindowLimiter

The per-identifier request log is a list of request instants stored under a
dedicated key with TTL = window; the stored state pairs the list with its
absolute expiry instant.  A check reads the log (an expired or absent key
reads as the empty list, matching get returning null and the source
defaulting to an empty array), keeps the entries with instant strictly
greater than now - window * 1000, denies if at least limit entries remain
(without writing), and otherwise appends now and stores the kept list with
a fresh full-window TTL. -/

structure SWResult where
  allowed : Bool
  remaining : Int
deriving DecidableEq

/-- Shallow embedding of the per-request check performed by the middleware
returned by RateLimiter.createSlidingWindowLimiter. -/
def slidingWindowCheck (limit window now : Int) (st : Option (List Int × Int)) :
    SWResult × Option (List Int × Int) :=
  let requests : List Int :=
    match st with
    | none => []
    | some (l, e) => if now < e then l else []
  let windowStart := now - window * 1000
  let validRequests := requests.filter (fun ts => decide (windowStart < ts))
  if limit ≤ (validRequests.length : Int) then
    ({ allowed := false, remaining := 0 }, st)
  else
    let updated := validRequests ++ [now]
    ({ allowed := true, remaining := limit - updated.length },
     some (updated, now + window * 1000))

/-- Run a sequence of sliding-window checks, recording each admission
decision. -/
def slidingWindowRun (limit window : Int) (st : Option (List Int × Int)) :
    List Int → List Bool × Option (List Int × Int)
  | [] => ([], st)
  | t :: ts =>
      let step := slidingWindowCheck limit window t st
      let rest := slidingWindowRun limit window step.2 ts
      (step.1.allowed :: rest.1, rest.2)

/-- Entries kept by the rule stated in the claim: drop exactly the entries
older than now - window, keeping every entry with instant at least
now - window * 1000.  This follows the wording of the specification and is
compared against the kept set computed by the source. -/
def slidingKeptByClaim (window now : Int) (requests : List Int) : List Int :=
  requests.filter (fun ts => decide (now - window * 1000 ≤ ts))

/-- Claim C6 counterexample: with limit 2 and window 60, requests admitted
at instants 0 and 30000 leave the log containing 0 and 30000 with the key
live until 90000.  At instant 60000 the claimed drop rule (drop only
entries strictly older than now - window) keeps both entries, so the claim
requires denial (2 kept entries with limit 2); but the source filters with
a strict comparison, also dropping the entry at exactly now - window, keeps
only one entry, and admits the request. -/
theorem C6_counterexample_boundary_entry :
    ((slidingWindowCheck 2 60 30000 ((slidingWindowCheck 2 60 0 none).2)).2
       = some ([0, 30000], 90000)) ∧
    ((slidingKeptByClaim 60 60000 [0, 30000]).length : Int) ≥ 2 ∧
    (slidingWindowCheck 2 60 60000 (some ([0, 30000], 90000))).1.allowed = true := by
  refine ⟨rfl, by decide, rfl⟩

/-- Claim C6 (amended): the sliding-window limiter maintains per-identifier
request instants, drops entries with instant less than or equal to
now - window (the entry at exactly now - window is dropped as well, since
the source keeps only strictly newer entries) before each admission
decision, denies when the remaining count is at least the limit, and
otherwise appends now.  With limit 3 and window 60 seconds, requests at
instants 0, 10000 and 20000 are admitted, a fourth request at instant
30000 is denied, and a fifth request at instant 61000 is admitted. -/
theorem C6_sliding_window_amended :
    (slidingWindowRun 3 60 none [0, 10000, 20000, 30000, 61000]).1 =
      [true, true, true, false, true] ∧
    (∀ limit window now : Int, ∀ l : List Int, ∀ e : Int, now < e →
      (slidingWindowCheck limit window now (some (l, e))).1.allowed =
        decide ((((l.filter (fun ts => decide (now - window * 1000 < ts))).length : Int)
          < limit))) := by
  constructor
  · rfl
  · intro limit window now l e hlive
    unfold slidingWindowCheck
    simp only [if_pos hlive]
    by_cases hc : limit ≤ (((l.filter (fun ts => decide (now - window * 1000 < ts))).length : Int))
    · simp [hc, not_lt.mpr hc]
    · simp [hc, lt_of_not_le hc]

/-! ## Session manager: setupRedis.js SessionManager

A live session is reduced to its identifier and its lastActivity instant
(milliseconds); the remaining attributes play no role in eviction or
expiry.  SessionManager.createSession reads the set of live sessions of
the user, and when their number is at least maxSessions it sorts them by
ascending lastActivity and deletes the first length - maxSessions + 1 of
them (the least recently active) before storing the new session. -/

structure Sess where
  sessionId : Nat
  lastActivity : Int
deriving DecidableEq

/-- Ascending comparison by lastActivity used by the sort callback in
SessionManager.createSession. -/
def sessLe (a b : Sess) : Prop := a.lastActivity ≤ b.lastActivity

instance : DecidableRel sessLe := fun a b => Int.decLe a.lastActivity b.lastActivity

instance : IsTotal Sess sessLe := ⟨fun a b => Int.le_total a.lastActivity b.lastActivity⟩

instance : IsTrans Sess sessLe := ⟨fun _ _ _ hab hbc => le_trans hab hbc⟩

/-- The session list of the user sorted by ascending lastActivity. -/
def sortedSessions (sessions : List Sess) : List Sess :=
  sessions.insertionSort sessLe

/-- Sessions deleted by SessionManager.createSession when the user already
holds at least maxSessions live sessions: the first
length - maxSessions + 1 entries of the ascending sort, that is the least
recently active ones. -/
def evictedSessions (maxSessions : Nat) (sessions : List Sess) : List Sess :=
  if maxSessions ≤ sessions.length then
    (sortedSessions sessions).take (sessions.length - maxSessions + 1)
  else []

/-- Sessions surviving the eviction pass of SessionManager.createSession. -/
def retainedSessions (maxSessions : Nat) (sessions : List Sess) : List Sess :=
  if maxSessions ≤ sessions.length then
    (sortedSessions sessions).drop (sessions.length - maxSessions + 1)
  else sessions

/-- Shallow embedding of SessionManager.createSession: evict the least
recently active sessions when the count is at least maxSessions, then
store the new session (created with lastActivity = now) and register it
in the session set of the user. -/
def createSession (maxSessions : Nat) (sessions : List Sess)
    (newId : Nat) (now : Int) : List Sess :=
  retainedSessions maxSessions sessions ++ [⟨newId, now⟩]

theorem length_sortedSessions (sessions : List Sess) :
    (sortedSessions sessions).length = sessions.length :=
  (List.perm_insertionSort sessLe sessions).length_eq

/-- Claim C3: after any createSession call the number of live sessions of
the user never exceeds the configured maximum (provided the maximum is
positive, as is the default 5); every evicted session is at most as
recently active as every retained one, so the retained sessions are
exactly the most recently active; and on an eviction the retained count is
maxSessions - 1 before the new session is added. -/
theorem C3_createSession_bounded (maxSessions : Nat) (sessions : List Sess)
    (newId : Nat) (now : Int) (hmax : 1 ≤ maxSessions) :
    (createSession maxSessions sessions newId now).length ≤ maxSessions ∧
    (∀ x ∈ evictedSessions maxSessions sessions,
     ∀ y ∈ retainedSessions maxSessions sessions, x.lastActivity ≤ y.lastActivity) ∧
    (maxSessions ≤ sessions.length →
      (retainedSessions maxSessions sessions).length = maxSessions - 1) := by
  refine ⟨?_, ?_, ?_⟩
  · unfold createSession retainedSessions
    by_cases h : maxSessions ≤ sessions.length
    · simp only [if_pos h, List.length_append, List.length_drop,
        length_sortedSessions, List.length_singleton]
      omega
    · simp only [if_neg h, List.length_append, List.length_singleton]
      omega
  · intro x hx y hy
    unfold evictedSessions at hx
    by_cases h : maxSessions ≤ sessions.length
    · rw [if_pos h] at hx
      unfold retainedSessions at hy
      rw [if_pos h] at hy
      have hsorted : List.Sorted sessLe (sortedSessions sessions) :=
        List.sorted_insertionSort sessLe sessions
      exact hsorted.rel_of_mem_take_of_mem_drop hx hy
    · rw [if_neg h] at hx
      exact absurd hx (List.not_mem_nil x)
  · intro h
    unfold retainedSessions
    rw [if_pos h]
    rw [List.length_drop, length_sortedSessions]
    omega

/-- Witness for claim C3: a user with six live sessions and maximum 5
keeps at most five sessions after a createSession call, the two evicted
sessions are no more recently active than any retained one, and exactly
four old sessions are retained. -/
theorem C3_createSession_bounded_witness :
    1 ≤ 5 ∧
    ((createSession 5 [⟨1, 30⟩, ⟨2, 10⟩, ⟨3, 50⟩, ⟨4, 20⟩, ⟨5, 40⟩, ⟨6, 60⟩] 7 100).length ≤ 5 ∧
     (∀ x ∈ evictedSessions 5 [⟨1, 30⟩, ⟨2, 10⟩, ⟨3, 50⟩, ⟨4, 20⟩, ⟨5, 40⟩, ⟨6, 60⟩],
      ∀ y ∈ retainedSessions 5 [⟨1, 30⟩, ⟨2, 10⟩, ⟨3, 50⟩, ⟨4, 20⟩, ⟨5, 40⟩, ⟨6, 60⟩],
        x.lastActivity ≤ y.lastActivity) ∧
     (5 ≤ ([⟨1, 30⟩, ⟨2, 10⟩, ⟨3, 50⟩, ⟨4, 20⟩, ⟨5, 40⟩, ⟨6, 60⟩] : List Sess).length →
      (retainedSessions 5 [⟨1, 30⟩, ⟨2, 10⟩, ⟨3, 50⟩, ⟨4, 20⟩, ⟨5, 40⟩, ⟨6, 60⟩]).length = 4)) :=
  ⟨by decide,
   C3_createSession_bounded 5 [⟨1, 30⟩, ⟨2, 10⟩, ⟨3, 50⟩, ⟨4, 20⟩, ⟨5, 40⟩, ⟨6, 60⟩]
     7 100 (by decide)⟩

/-! ## Session refresh and middleware

The stored session record is reduced to its identifier and lastActivity;
the store entry pairs it with the absolute expiry instant of its key.
SessionManager.isSessionExpired compares the idle time (now minus
lastActivity, in milliseconds) against the configured ttl (seconds). -/

/-- Store read for a session key, visible only strictly before its expiry
instant. -/
def sessGet (now : Int) (st : Option (Sess × Int)) : Option Sess :=
  match st with
  | none => none
  | some (s, e) => if now < e then some s else none

/-- Shallow embedding of SessionManager.isSessionExpired: the session is
expired when the idle time exceeds ttl seconds. -/
def isSessionExpired (ttl now : Int) (s : Sess) : Bool :=
  decide (ttl * 1000 < now - s.lastActivity)

/-- Outcome of SessionManager.refreshSession: the not-found error, the
expired error, or success returning the fetched session. -/
inductive RefreshResult where
  | notFound : RefreshResult
  | expired : RefreshResult
  | refreshed : Sess → RefreshResult
deriving DecidableEq

/-- Shallow embedding of SessionManager.refreshSession: fetch the session;
fail not-found when absent; when expired, delete the session and fail
expired; otherwise update lastActivity to now and store the session again
with the full ttl. -/
def refreshSession (ttl now : Int) (st : Option (Sess × Int)) :
    RefreshResult × Option (Sess × Int) :=
  match sessGet now st with
  | none => (RefreshResult.notFound, st)
  | some s =>
      if isSessionExpired ttl now s then
        (RefreshResult.expired, none)
      else
        (RefreshResult.refreshed s,
         some ({ s with lastActivity := now }, now + ttl * 1000))

/-- Claim C8: refreshSession fails with the not-found error when no
session is stored under the identifier; fails with the expired error when
the idle time (now minus lastActivity) exceeds the ttl, deleting the
session from the store as a side effect; and otherwise updates
lastActivity to now and renews the key TTL to the full ttl. -/
theorem C8_refreshSession_cases (ttl now : Int) (st : Option (Sess × Int)) :
    (sessGet now st = none →
      refreshSession ttl now st = (RefreshResult.notFound, st)) ∧
    (∀ s : Sess, sessGet now st = some s → ttl * 1000 < now - s.lastActivity →
      refreshSession ttl now st = (RefreshResult.expired, none)) ∧
    (∀ s : Sess, sessGet now st = some s → now - s.lastActivity ≤ ttl * 1000 →
      refreshSession ttl now st =
        (RefreshResult.refreshed s,
         some ({ s with lastActivity := now }, now + ttl * 1000))) := by
  refine ⟨?_, ?_, ?_⟩
  · intro h
    unfold refreshSession
    rw [h]
  · intro s h hidle
    unfold refreshSession
    rw [h]
    simp [isSessionExpired, hidle]
  · intro s h hidle
    unfold refreshSession
    rw [h]
    simp [isSessionExpired, not_lt.mpr hidle]

/-- Witness for claim C8: a live session with idle time 500 milliseconds
and ttl 3600 seconds is refreshed, its lastActivity becomes the current
instant and its key expiry is renewed to the full ttl. -/
theorem C8_refreshSession_cases_witness :
    sessGet 1000 (some (⟨7, 500⟩, 5000)) = some ⟨7, 500⟩ ∧
    (1000 : Int) - 500 ≤ 3600 * 1000 ∧
    refreshSession 3600 1000 (some (⟨7, 500⟩, 5000)) =
      (RefreshResult.refreshed ⟨7, 500⟩, some (⟨7, 1000⟩, 3601000)) := by
  refine ⟨by decide, by decide, ?_⟩
  exact (C8_refreshSession_cases 3600 1000 (some (⟨7, 500⟩, 5000))).2.2
    ⟨7, 500⟩ (by decide) (by decide)

/-! ## Middleware fail-open behaviour

The outcome of an express middleware invocation: the next handler is
called, a definite rejection status is sent, or an exception escapes the
middleware and aborts the request pipeline.  The source wraps both
middleware bodies in a try/catch whose catch branch calls next, so the
thrown outcome is never produced. -/

inductive MWOut where
  | next : MWOut
  | reject : Nat → MWOut
  | thrown : MWOut
deriving DecidableEq

/-- Shallow embedding of one invocation of the middleware produced by
RateLimiter.createLimiter: when no limits are configured for the category,
continue; otherwise consult checkRateLimit, whose outcome is either a
store failure (the awaited call rejects) or a result record; a failure is
caught and the request proceeds, a denial yields status 429, and an
allowed result continues to the next handler. -/
def createLimiterRun (limits : Option (Int × Int))
    (checkOutcome : Except String RLResult) : MWOut :=
  match limits with
  | none => MWOut.next
  | some _ =>
      match checkOutcome with
      | Except.error _ => MWOut.next
      | Except.ok r => if r.allowed then MWOut.next else MWOut.reject 429

/-- Shallow embedding of one invocation of the middleware produced by
SessionManager.createSessionMiddleware: resolve a session identifier; when
none resolves, attach no session and continue; otherwise fetch the session
(getOutcome is the store read outcome), treating a fetch failure, an
absent session, or an expired session as no session; a live session is
refreshed through updateSession (updOutcome), and a failure there is also
caught, attaching no session.  Every branch calls the next handler. -/
def sessionMiddlewareRun (sid : Option String)
    (getOutcome : Except String (Option Sess))
    (updOutcome : Except String Unit) (ttl now : Int) : Option Sess × MWOut :=
  match sid with
  | none => (none, MWOut.next)
  | some _ =>
      match getOutcome with
      | Except.error _ => (none, MWOut.next)
      | Except.ok none => (none, MWOut.next)
      | Except.ok (some s) =>
          if isSessionExpired ttl now s then (none, MWOut.next)
          else
            match updOutcome with
            | Except.error _ => (none, MWOut.next)
            | Except.ok _ => (some s, MWOut.next)

/-- Claim C9: when the underlying store operation fails, the rate-limiter
middleware lets the request proceed (next is called, no rejection and no
escaping exception) and the session middleware attaches no session and
continues; a failure of the lastActivity update inside the session
middleware is likewise caught, attaching no session.  Neither failure
aborts the request pipeline. -/
theorem C9_fail_open (limits : Option (Int × Int)) (e1 e2 e3 : String)
    (sid : String) (upd : Except String Unit) (s : Sess) (ttl now : Int) :
    createLimiterRun limits (Except.error e1) = MWOut.next ∧
    sessionMiddlewareRun (some sid) (Except.error e2) upd ttl now =
      (none, MWOut.next) ∧
    sessionMiddlewareRun (some sid) (Except.ok (some s)) (Except.error e3) ttl now =
      (none, MWOut.next) := by
  refine ⟨?_, rfl, ?_⟩
  · cases limits with
    | none => rfl
    | some l => rfl
  · unfold sessionMiddlewareRun
    by_cases h : isSessionExpired ttl now s
    · simp [h]
    · simp [h]

/-! ## Job queue and processor

RedisService.enqueueJob wraps a payload in a fresh job record with a new
identifier, attempts 0 and maxAttempts 3, and pushes it on the left of the
queue list; dequeueJob pops from the right, so the queue is FIFO.  The
processor state tracks the queue of the (single) job type under study, the
persisted job-result entries keyed by job identifier, a fresh-identifier
counter standing for randomUUID, and the number of handler dispatches
performed, which counts the processing events logged by
JobProcessor.processJob. -/

inductive JobResult where
  | completed : String → JobResult
  | failed : String → JobResult
deriving DecidableEq

structure Job where
  id : Nat
  data : String
  priority : Int
  attempts : Nat
  maxAttempts : Nat
deriving DecidableEq

structure JPState where
  queue : List Job
  results : List (Nat × JobResult)
  nextId : Nat
  dispatchCount : Nat
deriving DecidableEq

/-- Empty processor state. -/
def jpInit : JPState := { queue := [], results := [], nextId := 0, dispatchCount := 0 }

/-- Shallow embedding of RedisService.enqueueJob: wrap the payload in a
fresh job with a new identifier, attempts 0 and maxAttempts 3, and push it
on the left of the queue.  Returns the new job identifier and the new
state. -/
def enqueueJob (st : JPState) (jobData : String) (priority : Int) : Nat × JPState :=
  let job : Job :=
    { id := st.nextId, data := jobData, priority := priority,
      attempts := 0, maxAttempts := 3 }
  (st.nextId,
   { st with queue := job :: st.queue, nextId := st.nextId + 1 })

/-- Shallow embedding of RedisService.dequeueJob: pop from the right of
the queue list. -/
def dequeueJob (st : JPState) : Option Job × JPState :=
  match st.queue.getLast? with
  | none => (none, st)
  | some j => (some j, { st with queue := st.queue.dropLast })

/-- Effective retry cap in JobProcessor.processJob, which reads
maxAttempts with a fallback of 3 for a missing or zero field. -/
def jpMaxAttempts (j : Job) : Nat :=
  if j.maxAttempts = 0 then 3 else j.maxAttempts

/-- Error message thrown by JobProcessor.processJob when no handler is
registered for the job type (the source appends the type name). -/
def noProcessorMsg : String := "No processor registered for job type"

/-- Failure branch of JobProcessor.processJob: increment the attempt
counter of the local job object; while still below the cap, retry by
calling RedisService.enqueueJob with the payload, which wraps it in a
fresh job whose attempts field is 0; otherwise persist a failed job
result under the identifier of the dequeued job. -/
def handleJobFailure (st : JPState) (job : Job) (e : String) : JPState :=
  let attempts := job.attempts + 1
  if attempts < jpMaxAttempts job then
    (enqueueJob st job.data job.priority).2
  else
    { st with results := (job.id, JobResult.failed e) :: st.results }

/-- Shallow embedding of JobProcessor.processJob on a dequeued job: look
up the registered handler for the job type (modelled as an optional
handler); a missing handler throws inside the try block and is handled by
the same catch as a handler failure; a successful handler run persists a
completed result under the job identifier. -/
def processJob (handler : Option (String → Except String String))
    (st : JPState) (job : Job) : JPState :=
  let st1 := { st with dispatchCount := st.dispatchCount + 1 }
  match handler with
  | none => handleJobFailure st1 job noProcessorMsg
  | some h =>
      match h job.data with
      | Except.ok r =>
          { st1 with results := (job.id, JobResult.completed r) :: st1.results }
      | Except.error e => handleJobFailure st1 job e

/-- One poll iteration of JobProcessor.processJobs for the job type under
study: dequeue a job and, when one is present, process it. -/
def jpTick (handler : Option (String → Except String String))
    (st : JPState) : JPState :=
  match dequeueJob st with
  | (none, st2) => st2
  | (some j, st2) => processJob handler st2 j

/-- Iterate the poll loop a given number of times. -/
def jpRunTicks (handler : Option (String → Except String String)) :
    Nat → JPState → JPState
  | 0, st => st
  | n + 1, st => jpRunTicks handler n (jpTick handler st)

/-- Handler that fails on every invocation. -/
def alwaysFailHandler : String → Except String String :=
  fun _ => Except.error "boom"

/-- Claim C1 evaluated at the failing input: one job is enqueued and its
handler fails on every invocation.  After four poll iterations the job has
been dispatched four times, no job result (in particular no terminal
failed result) has been persisted, and the queue still holds one job whose
attempts field is 0 with a fresh identifier: the retry path re-enqueues
through RedisService.enqueueJob, which resets the attempt counter, so the
maxAttempts cap of 3 dispatches claimed is exceeded and the terminal
failed result is never written. -/
theorem C1_retry_resets_attempts :
    (jpRunTicks (some alwaysFailHandler) 4 ((enqueueJob jpInit "payload" 0).2)).dispatchCount
      = 4 ∧
    (jpRunTicks (some alwaysFailHandler) 4 ((enqueueJob jpInit "payload" 0).2)).results
      = [] ∧
    (jpRunTicks (some alwaysFailHandler) 4 ((enqueueJob jpInit "payload" 0).2)).queue
      = [{ id := 4, data := "payload", priority := 0, attempts := 0, maxAttempts := 3 }] :=
  ⟨rfl, rfl, rfl⟩

/-- Claim C5 counterexample: a job is dequeued while no handler is
registered for its type.  After one poll iteration the job has been
re-enqueued onto the queue (as a fresh job wrapping the same payload) and
nothing has been persisted or surfaced: the missing-handler error goes
through the ordinary retry path instead of failing fatally. -/
theorem C5_counterexample_missing_handler_retries :
    (jpTick none ((enqueueJob jpInit "payload" 0).2)).queue
      = [{ id := 1, data := "payload", priority := 0, attempts := 0, maxAttempts := 3 }] ∧
    (jpTick none ((enqueueJob jpInit "payload" 0).2)).results = [] ∧
    (jpTick none ((enqueueJob jpInit "payload" 0).2)).queue.length ≠ 0 :=
  ⟨rfl, rfl, by decide⟩

/-- Claim C5 (amended): a dequeued job whose type has no registered
handler is treated exactly like a handler failure: the thrown
missing-handler error is caught by the retry logic, so while the
incremented attempt counter is below the cap the payload is re-enqueued
as a fresh job, and only once the cap is reached is a failed result with
the missing-handler message persisted. -/
theorem C5_missing_handler_goes_through_retry (st : JPState) (j : Job) :
    (j.attempts + 1 < jpMaxAttempts j →
      processJob none st j =
        { queue :=
            { id := st.nextId, data := j.data, priority := j.priority,
              attempts := 0, maxAttempts := 3 } :: st.queue,
          results := st.results, nextId := st.nextId + 1,
          dispatchCount := st.dispatchCount + 1 }) ∧
    (jpMaxAttempts j ≤ j.attempts + 1 →
      processJob none st j =
        { st with
            results := (j.id, JobResult.failed noProcessorMsg) :: st.results,
            dispatchCount := st.dispatchCount + 1 }) := by
  constructor
  · intro h
    unfold processJob handleJobFailure enqueueJob
    simp [h]
  · intro h
    unfold processJob handleJobFailure
    simp [not_lt.mpr h]

/-- Witness for the amended claim C5: a freshly wrapped job (attempts 0,
maxAttempts 3) processed without a registered handler is re-enqueued as a
fresh job with attempts 0. -/
theorem C5_missing_handler_goes_through_retry_witness :
    0 + 1 < jpMaxAttempts
      { id := 0, data := "payload", priority := 0, attempts := 0, maxAttempts := 3 } ∧
    processJob none jpInit
      { id := 0, data := "payload", priority := 0, attempts := 0, maxAttempts := 3 } =
      { queue := [{ id := 0, data := "payload", priority := 0, attempts := 0, maxAttempts := 3 }],
        results := [], nextId := 1, dispatchCount := 1 } :=
  ⟨by decide,
   (C5_missing_handler_goes_through_retry jpInit
     { id := 0, data := "payload", priority := 0, attempts := 0, maxAttempts := 3 }).1
     (by decide)⟩

/-! ## Notification fan-out: RedisService.publishNotification

The per-user notification key is written only by lpush, so whenever it is
present it holds a Redis list.  RedisService.publishNotification pushes
the new entry on the left of that list and then calls smembers on the same
key to decide whether to trim; smembers is a set operation, and on a key
holding a list Redis answers a WRONGTYPE error, which the store adapter
rethrows.  The push has already happened when the error is raised, so the
list keeps growing and the catch block rethrows a wrapped error to the
caller.  RedisService.getUserNotifications reads the same key through
smembers as well. -/

structure Notif where
  id : Nat
  message : String
deriving DecidableEq

/-- Error produced by Redis when a set command addresses a key holding a
list. -/
def wrongTypeMsg : String :=
  "WRONGTYPE Operation against a key holding the wrong kind of value"

/-- Shallow embedding of the store adapters smembers on the per-user
notification key: an absent key reads as the empty collection, and a key
holding a list raises the WRONGTYPE error. -/
def smembersNotifKey (st : Option (List Notif)) : Except String (List Notif) :=
  match st with
  | none => Except.ok []
  | some _ => Except.error wrongTypeMsg

/-- Shallow embedding of rpop on the notification list: remove the entry
at the right end (the oldest, since lpush prepends). -/
def rpopNotif (st : Option (List Notif)) : Option (List Notif) :=
  st.map List.dropLast

/-- The trim loop of RedisService.publishNotification: pop the right end
the given number of times. -/
def rpopLoop : Option (List Notif) → Nat → Option (List Notif)
  | st, 0 => st
  | st, k + 1 => rpopLoop (rpopNotif st) k

/-- Shallow embedding of RedisService.publishNotification for one user:
push the new entry on the left of the notification list, then read the key
back through smembers to trim it down to 100 entries.  The smembers call
raises WRONGTYPE whenever the key is present (it always is, right after
the push), so the function returns the wrapped error while the pushed
entry stays in the store and no trimming happens. -/
def publishNotification (st : Option (List Notif)) (n : Notif) :
    Except String Nat × Option (List Notif) :=
  let st1 : Option (List Notif) := some (n :: st.getD [])
  match smembersNotifKey st1 with
  | Except.error e =>
      (Except.error ("Failed to publish notification: " ++ e), st1)
  | Except.ok notifications =>
      if 100 < notifications.length then
        (Except.ok n.id, rpopLoop st1 (notifications.length - 100))
      else
        (Except.ok n.id, st1)

/-- Shallow embedding of RedisService.getUserNotifications: read the
notification key through smembers and return the first limit entries. -/
def getUserNotifications (st : Option (List Notif)) (limit : Nat) :
    Except String (List Notif) :=
  match smembersNotifKey st with
  | Except.error e =>
      Except.error ("Failed to get user notifications: " ++ e)
  | Except.ok notifications => Except.ok (notifications.take limit)

/-- Publish a batch of notifications for one user, keeping the store state
across the failing calls (the push of each call persists even though the
call then throws). -/
def publishMany (st : Option (List Notif)) (ns : List Notif) : Option (List Notif) :=
  ns.foldl (fun s n => (publishNotification s n).2) st

/-- Batch of 105 notifications for one user. -/
def notifBatch : List Notif := (List.range 105).map (fun i => { id := i, message := "m" })

/-- Claim C4 evaluated at the failing input: publishing 105 notifications
for one user leaves all 105 entries stored, not 100.  Every publish call
returns the wrapped WRONGTYPE error (shown for the first call), because
smembers is called on the list key, so the trim loop never runs; and
retrieval through getUserNotifications fails with the wrapped WRONGTYPE
error instead of returning the most recent entries. -/
theorem C4_trim_never_runs :
    (publishNotification none { id := 0, message := "m" }).1 =
      Except.error ("Failed to publish notification: " ++ wrongTypeMsg) ∧
    ((publishMany none notifBatch).getD []).length = 105 ∧
    getUserNotifications (publishMany none notifBatch) 10 =
      Except.error ("Failed to get user notifications: " ++ wrongTypeMsg) := by
  refine ⟨rfl, ?_, rfl⟩
  rfl

/-- Witness for the amended claim C6: at instant 5000 with a live log
containing one entry at instant 0, the admission decision equals the
comparison of the strictly-filtered count against the limit. -/
theorem C6_sliding_window_amended_witness :
    (5000 : Int) < 10000 ∧
    (slidingWindowCheck 3 60 5000 (some ([0], 10000))).1.allowed =
      decide (((([0] : List Int).filter
        (fun ts => decide ((5000 : Int) - 60 * 1000 < ts))).length : Int) < 3) :=
  ⟨by decide, C6_sliding_window_amended.2 3 60 5000 [0] 10000 (by decide)⟩
